import Mathlib

/-
  Verification development for the broqer publish/subscribe core.

  The definitions below are shallow embeddings of the Python sources:

  * `PublisherState`, `Publisher.subscribe`, `Publisher.unsubscribe`,
    `notifyFan` ....... broqer/publisher.py  (class Publisher)
  * `valueEmit`, `valueNotify` ....... broqer/value.py (class Value)
  * `distinctEmit` ....... broqer/op/distinct.py (Distinct.emit)
  * `slidingEmit`, `slidingRun` ....... broqer/op/sliding_window.py
  * `cacheSubscribeTrace`, `topicSubscribeTrace`, `multiSubscribeTrace`
    ....... broqer/op/cache.py, broqer/hub.py, broqer/op/_operator.py
    together with the legacy base publisher in broqer/core.py
  * `TopicState`, `waitForAssignment`, `hubBuild` ....... broqer/hub.py

  Python object identity of subscribers and publishers is modelled by
  natural-number identifiers; the sentinel broqer.NONE is modelled by
  `Option.none`; exceptions are modelled by `Except` / `Option`.
-/

namespace Broqer

/-- Error raised by subscribe/unsubscribe, modelling
`broqer.publisher.SubscriptionError`. -/
inductive SubErr where
  | subscriptionError
  deriving DecidableEq

/-- Observable side effects of one publisher method call: an activation
callback invocation (`_on_subscription_cb(flag)`) or a delivery
`subscriber.emit(value, who=self)` to the subscriber identified by `sub`. -/
inductive PubEvent (α : Type) where
  | cb (flag : Bool)
  | emit (sub : Nat) (value : α)
  deriving DecidableEq

/-- Model of `broqer/publisher.py` class `Publisher`:
`state` models `_state` (`none` is the sentinel `broqer.NONE`),
`subscriptions` models the list `_subscriptions` (subscribers by identity),
`onSubscriptionCb` records whether `_on_subscription_cb` is registered. -/
structure PublisherState (α : Type) where
  state : Option α
  subscriptions : List Nat
  onSubscriptionCb : Bool
  deriving DecidableEq

/-- Model of `Publisher.subscribe(subscriber, prepend=False)`
(broqer/publisher.py lines 62-93).  In source order: raise
`SubscriptionError` when the subscriber is already present by identity
(`any(subscriber is s for s in self._subscriptions)`); call the activation
callback with `True` when the subscription list was empty and a callback is
registered; insert at the front when `prepend` else append; when `_state`
is not NONE, emit the state to the new subscriber.  The returned event list
records the callback call and the emission, in call order. -/
def Publisher.subscribe {α : Type} (p : PublisherState α) (s : Nat)
    (prepend : Bool) : Except SubErr (PublisherState α × List (PubEvent α)) :=
  if p.subscriptions.any (fun t => t = s) then
    Except.error SubErr.subscriptionError
  else
    let cbEvs : List (PubEvent α) :=
      if p.subscriptions.isEmpty ∧ p.onSubscriptionCb then
        [PubEvent.cb true]
      else []
    let subs' := if prepend then s :: p.subscriptions else p.subscriptions ++ [s]
    let emitEvs : List (PubEvent α) :=
      match p.state with
      | some v => [PubEvent.emit s v]
      | none => []
    Except.ok ({ p with subscriptions := subs' }, cbEvs ++ emitEvs)

/-- Helper modelling the removal loop in `Publisher.unsubscribe`
(broqer/publisher.py lines 106-113): remove the first entry that is the
given subscriber by identity; `none` when no entry matches. -/
def removeFirst : List Nat → Nat → Option (List Nat)
  | [], _ => none
  | x :: xs, s =>
      if x = s then some xs
      else (removeFirst xs s).map (fun ys => x :: ys)

/-- Model of `Publisher.unsubscribe(subscriber)` (broqer/publisher.py lines
95-115): pop the first identity match; if the subscription list became
empty and a callback is registered, call it with `False`; raise
`SubscriptionError` when the subscriber is not found. -/
def Publisher.unsubscribe {α : Type} (p : PublisherState α) (s : Nat) :
    Except SubErr (PublisherState α × List (PubEvent α)) :=
  match removeFirst p.subscriptions s with
  | none => Except.error SubErr.subscriptionError
  | some subs' =>
      Except.ok ({ p with subscriptions := subs' },
        if subs'.isEmpty ∧ p.onSubscriptionCb then [PubEvent.cb false] else [])

/-- The values delivered to subscriber `s` within an event list. -/
def emitsTo {α : Type} (s : Nat) (evs : List (PubEvent α)) : List α :=
  evs.filterMap (fun e =>
    match e with
    | PubEvent.emit t v => if t = s then some v else none
    | PubEvent.cb _ => none)

theorem removeFirst_eq_none_iff (l : List Nat) (s : Nat) :
    removeFirst l s = none ↔ l.any (fun t => t = s) = false := by
  induction l with
  | nil => simp [removeFirst]
  | cons x xs ih =>
      by_cases hx : x = s
      · simp [removeFirst, hx]
      · simp [removeFirst, hx, ih]

theorem removeFirst_length (l : List Nat) (s : Nat) (l' : List Nat)
    (h : removeFirst l s = some l') : l.length = l'.length + 1 := by
  induction l generalizing l' with
  | nil => simp [removeFirst] at h
  | cons x xs ih =>
      by_cases hx : x = s
      · simp [removeFirst, hx] at h
        simp [← h]
      · simp [removeFirst, hx] at h
        rcases h with ⟨ys, hy, hl⟩
        subst hl
        simp [ih ys hy]

/-- Successful `Publisher.subscribe`: the value computed by the source when
the duplicate check passes. -/
theorem subscribe_ok {α : Type} (p : PublisherState α) (s : Nat)
    (prepend : Bool) (h : p.subscriptions.any (fun t => t = s) = false) :
    Publisher.subscribe p s prepend = Except.ok
      ({ p with subscriptions :=
          if prepend then s :: p.subscriptions else p.subscriptions ++ [s] },
       (if p.subscriptions.isEmpty ∧ p.onSubscriptionCb then
          [PubEvent.cb true] else ([] : List (PubEvent α))) ++
       (match p.state with
        | some v => [PubEvent.emit s v]
        | none => [])) := by
  unfold Publisher.subscribe
  rw [if_neg (by simp [h])]

/-- C2: on a publisher whose state is not the sentinel NONE, subscribing a
subscriber that is not already present (by identity) delivers the current
state to that subscriber exactly once before `subscribe` returns; when the
state is NONE, `subscribe` performs no emission to the new subscriber. -/
theorem subscribe_replays_state_exactly_once {α : Type} (p : PublisherState α)
    (s : Nat) (prepend : Bool)
    (h : p.subscriptions.any (fun t => t = s) = false) :
    ∃ p' evs, Publisher.subscribe p s prepend = Except.ok (p', evs) ∧
      emitsTo s evs = (match p.state with
        | some v => [v]
        | none => []) := by
  refine ⟨_, _, subscribe_ok p s prepend h, ?_⟩
  cases hst : p.state <;>
    by_cases hcb : p.subscriptions.isEmpty ∧ p.onSubscriptionCb <;>
      simp [hst, hcb, emitsTo] <;>
        { intros a h1 h2 ha; subst ha; rfl }

/-- Witness for `subscribe_replays_state_exactly_once` at a concrete
publisher with state 7 and subscriber 4. -/
theorem subscribe_replays_state_exactly_once_witness :
    ∃ p' evs,
      Publisher.subscribe (PublisherState.mk (some 7) [1, 2] true) 4 false =
        Except.ok (p', evs) ∧
      emitsTo 4 evs = [7] := by
  have h := subscribe_replays_state_exactly_once
    (PublisherState.mk (some 7) [1, 2] true) 4 false (by decide)
  simpa using h

/-- C7: subscribing a subscriber already present by identity raises
`SubscriptionError` (no `ok` result: the publisher is left unchanged, the
source raising before any mutation), and unsubscribing a subscriber that is
not present raises `SubscriptionError` likewise without mutation. -/
theorem subscription_conflict_errors {α : Type} (p : PublisherState α)
    (s : Nat) (prepend : Bool) :
    (p.subscriptions.any (fun t => t = s) = true →
      Publisher.subscribe p s prepend = Except.error SubErr.subscriptionError) ∧
    (p.subscriptions.any (fun t => t = s) = false →
      Publisher.unsubscribe p s = Except.error SubErr.subscriptionError) := by
  constructor
  · intro h
    unfold Publisher.subscribe
    simp [h]
  · intro h
    unfold Publisher.unsubscribe
    rw [(removeFirst_eq_none_iff p.subscriptions s).mpr h]

/-- Witness for `subscription_conflict_errors`: duplicate subscribe of 2 and
unsubscribe of the absent 9 both fail on a concrete publisher. -/
theorem subscription_conflict_errors_witness :
    Publisher.subscribe (PublisherState.mk (some 3) [1, 2] true) 2 false =
        Except.error SubErr.subscriptionError ∧
    Publisher.unsubscribe (PublisherState.mk (some 3) [1, 2] true) 9 =
        Except.error SubErr.subscriptionError := by
  exact ⟨(subscription_conflict_errors
            (PublisherState.mk (some 3) [1, 2] true) 2 false).1 (by decide),
         (subscription_conflict_errors
            (PublisherState.mk (some 3) [1, 2] true) 9 false).2 (by decide)⟩

/-- A subscribe or unsubscribe call on a publisher (argument of the C3
operation sequences). -/
inductive POp where
  | sub (s : Nat) (prepend : Bool)
  | unsub (s : Nat)
  deriving DecidableEq

/-- Apply one subscribe/unsubscribe call; a raised `SubscriptionError`
propagates to the caller, leaving the publisher unchanged and producing no
events (the source raises before any mutation). -/
def applyOp {α : Type} (p : PublisherState α) : POp → PublisherState α × List (PubEvent α)
  | POp.sub s prepend =>
      match Publisher.subscribe p s prepend with
      | Except.ok r => r
      | Except.error _ => (p, [])
  | POp.unsub s =>
      match Publisher.unsubscribe p s with
      | Except.ok r => r
      | Except.error _ => (p, [])

/-- The activation-callback invocations among an event list. -/
def cbEvents {α : Type} (evs : List (PubEvent α)) : List Bool :=
  evs.filterMap (fun e =>
    match e with
    | PubEvent.cb b => some b
    | PubEvent.emit _ _ => none)

/-- Run a sequence of subscribe/unsubscribe calls, recording for each step
the subscriber count before, the subscriber count after, and the activation
callback invocations of that step. -/
def stepTrace {α : Type} (p : PublisherState α) : List POp → List (Nat × Nat × List Bool)
  | [] => []
  | op :: ops =>
      let r := applyOp p op
      (p.subscriptions.length, r.1.subscriptions.length, cbEvents r.2) ::
        stepTrace r.1 ops

/-- The activation callback pattern C3 requires of a step: `[true]` exactly
on a 0 to 1 subscriber-count transition, `[false]` exactly on a 1 to 0
transition, and no invocation otherwise. -/
def expectedCb (before after : Nat) : List Bool :=
  if before = 0 ∧ after = 1 then [true]
  else if before = 1 ∧ after = 0 then [false]
  else []

theorem expectedCb_self (n : Nat) : expectedCb n n = [] := by
  unfold expectedCb
  split_ifs with h1 h2
  · omega
  · omega
  · rfl

theorem applyOp_cb {α : Type} (p : PublisherState α) (op : POp)
    (hcb : p.onSubscriptionCb = true) :
    cbEvents (applyOp p op).2 =
      expectedCb p.subscriptions.length (applyOp p op).1.subscriptions.length ∧
    (applyOp p op).1.onSubscriptionCb = true := by
  cases op with
  | sub s prepend =>
      cases hdup : p.subscriptions.any (fun t => t = s) with
      | true =>
          simp [applyOp, Publisher.subscribe, hdup, cbEvents, expectedCb_self, hcb]
      | false =>
          rw [applyOp, subscribe_ok p s prepend hdup]
          have hlen : (if prepend then s :: p.subscriptions
              else p.subscriptions ++ [s]).length =
              p.subscriptions.length + 1 := by
            cases prepend <;> simp
          cases hsubs : p.subscriptions with
          | nil =>
              cases hst : p.state <;>
                simp [hsubs, hst, hcb, cbEvents, expectedCb, hsubs ▸ hlen]
          | cons x xs =>
              cases hst : p.state <;>
                simp [hsubs, hst, hcb, cbEvents, expectedCb, hsubs ▸ hlen] <;>
                  { intro hxs; cases prepend <;> simp }
  | unsub s =>
      cases hrm : removeFirst p.subscriptions s with
      | none =>
          simp [applyOp, Publisher.unsubscribe, hrm, cbEvents, expectedCb_self,
            hcb]
      | some subs' =>
          have hlen : p.subscriptions.length = subs'.length + 1 :=
            removeFirst_length _ _ _ hrm
          cases hs' : subs' with
          | nil =>
              rw [hs'] at hlen
              simp [applyOp, Publisher.unsubscribe, hrm, hs', hcb, cbEvents,
                expectedCb, hlen]
          | cons y ys =>
              rw [hs'] at hlen
              simp [applyOp, Publisher.unsubscribe, hrm, hs', hcb, cbEvents,
                expectedCb, hlen]

/-- C3: for every sequence of subscribe/unsubscribe calls on a fresh
publisher with a registered activation callback, each step invokes the
callback with `true` exactly when the subscriber count transitions from 0
to 1, with `false` exactly when it transitions from 1 to 0, and not at all
otherwise (in particular not on failed subscribe/unsubscribe attempts). -/
theorem activation_callback_fires_only_on_transitions (ops : List POp) :
    ∀ step ∈ stepTrace (PublisherState.mk (none : Option Nat) [] true) ops,
      step.2.2 = expectedCb step.1 step.2.1 := by
  have main : ∀ (ops : List POp) (p : PublisherState Nat),
      p.onSubscriptionCb = true →
      ∀ step ∈ stepTrace p ops, step.2.2 = expectedCb step.1 step.2.1 := by
    intro ops
    induction ops with
    | nil => intro p hp step hstep; simp [stepTrace] at hstep
    | cons op rest ih =>
        intro p hp step hstep
        simp only [stepTrace, List.mem_cons] at hstep
        rcases hstep with hstep | hstep
        · subst hstep
          exact (applyOp_cb p op hp).1
        · exact ih (applyOp p op).1 (applyOp_cb p op hp).2 step hstep
  exact main ops _ rfl

/-- Witness for `activation_callback_fires_only_on_transitions` on the
concrete sequence subscribe 1, subscribe 2, unsubscribe 1, unsubscribe 2:
the step trace matches the expected callback pattern at the first step. -/
theorem activation_callback_fires_only_on_transitions_witness :
    (0, 1, [true]) ∈ stepTrace (PublisherState.mk (none : Option Nat) [] true)
        [POp.sub 1 false, POp.sub 2 false, POp.unsub 1, POp.unsub 2] ∧
      ([true] : List Bool) = expectedCb 0 1 :=
  ⟨by decide,
   activation_callback_fires_only_on_transitions
     [POp.sub 1 false, POp.sub 2 false, POp.unsub 1, POp.unsub 2]
     (0, 1, [true]) (by decide)⟩

/-- Model of the code a subscriber runs inside its `emit` method during a
fan-out: either it does not touch the publisher (`record`) or it
re-entrantly unsubscribes itself (`unsubSelf`, i.e. its `emit` calls
`publisher.unsubscribe(self)`). -/
inductive Behaviour where
  | record
  | unsubSelf
  deriving DecidableEq

/-- Effect of delivering `emit` to subscriber `s` during a fan-out, given
its behaviour.  `none` models a `SubscriptionError` escaping from the
re-entrant unsubscribe (it would propagate out of `notify`). -/
def emitStep {α : Type} (behav : Nat → Behaviour) (s : Nat)
    (p : PublisherState α) : Option (PublisherState α) :=
  match behav s with
  | Behaviour.record => some p
  | Behaviour.unsubSelf =>
      match Publisher.unsubscribe p s with
      | Except.ok r => some r.1
      | Except.error _ => none

/-- The loop `for s in self._subscriptions: s.emit(value, who=self)` in
`Publisher.notify` (broqer/publisher.py lines 127-128), modelled the way
CPython iterates a list that may be mutated by the loop body: an index
starting at 0 is incremented after each visited element and the loop stops
once the index reaches the current length of the (live) list.  Returns the
final publisher and the subscribers actually visited, in order.  `fuel`
bounds the iteration count; `notifyFan` passes the initial list length,
which suffices because the modelled behaviours never grow the list. -/
def fanLoop {α : Type} (behav : Nat → Behaviour) (p : PublisherState α)
    (i fuel : Nat) : Option (PublisherState α × List Nat) :=
  match fuel with
  | 0 => some (p, [])
  | Nat.succ fuel' =>
      if h : i < p.subscriptions.length then
        let s := p.subscriptions.get ⟨i, h⟩
        match emitStep behav s p with
        | none => none
        | some p' =>
            match fanLoop behav p' (i + 1) fuel' with
            | none => none
            | some r => some (r.1, s :: r.2)
      else some (p, [])

/-- Model of `Publisher.notify(value)` (broqer/publisher.py lines 121-128):
set `_state` to the value unconditionally, then emit the value to the
subscribers by iterating the live `_subscriptions` list. -/
def notifyFan {α : Type} (behav : Nat → Behaviour) (p : PublisherState α)
    (v : α) : Option (PublisherState α × List Nat) :=
  fanLoop behav { p with state := some v } 0 p.subscriptions.length

theorem fanLoop_record {α : Type} (behav : Nat → Behaviour)
    (fuel : Nat) :
    ∀ (i : Nat) (p : PublisherState α),
      (∀ s ∈ p.subscriptions, behav s = Behaviour.record) →
      p.subscriptions.length ≤ i + fuel →
      fanLoop behav p i fuel = some (p, p.subscriptions.drop i) := by
  induction fuel with
  | zero =>
      intro i p _ hle
      have : p.subscriptions.length ≤ i := by omega
      simp [fanLoop, List.drop_eq_nil_of_le this]
  | succ fuel' ih =>
      intro i p hrec hle
      by_cases h : i < p.subscriptions.length
      · have hs : behav (p.subscriptions.get ⟨i, h⟩) = Behaviour.record :=
          hrec _ (p.subscriptions.get_mem _ _)
        have hdrop : p.subscriptions.drop i =
            p.subscriptions.get ⟨i, h⟩ :: p.subscriptions.drop (i + 1) := by
          rw [List.drop_eq_getElem_cons h]
          simp
        have hstep : emitStep behav (p.subscriptions.get ⟨i, h⟩) p = some p := by
          rw [emitStep, hs]
        rw [fanLoop, dif_pos h]
        simp only [hstep, ih (i + 1) p hrec (by omega), hdrop]
      · have : p.subscriptions.length ≤ i := by omega
        simp [fanLoop, h, List.drop_eq_nil_of_le this]

/-- C1 (amended): `notify(v)` first sets the state to `v` and then fans out
over the live subscriber list; when no subscriber re-entrantly mutates the
subscription list during the fan-out, exactly the subscribers present at
the moment `notify` was called are visited, in insertion order. -/
theorem notify_visits_snapshot_when_no_reentrant_mutation {α : Type}
    (behav : Nat → Behaviour) (p : PublisherState α) (v : α)
    (hrec : ∀ s ∈ p.subscriptions, behav s = Behaviour.record) :
    notifyFan behav p v = some ({ p with state := some v }, p.subscriptions) := by
  unfold notifyFan
  rw [fanLoop_record behav p.subscriptions.length 0
    { p with state := some v } hrec (by simp)]
  simp

/-- Witness for `notify_visits_snapshot_when_no_reentrant_mutation` at a
concrete publisher with subscribers 3 and 7, all non-mutating. -/
theorem notify_visits_snapshot_witness :
    notifyFan (fun _ => Behaviour.record)
        (PublisherState.mk (none : Option Nat) [3, 7] false) 2 =
      some (PublisherState.mk (some 2) [3, 7] false, [3, 7]) :=
  notify_visits_snapshot_when_no_reentrant_mutation
    (fun _ => Behaviour.record)
    (PublisherState.mk (none : Option Nat) [3, 7] false) 2 (by decide)

/-- Counterexample to C1 as stated: on a publisher with subscribers
`[0, 1]` where subscriber 0 re-entrantly unsubscribes itself inside its
`emit`, `notify 5` visits only subscriber 0 — subscriber 1, although
present at the moment `notify` was called, is skipped by the live-list
iteration (so the fan-out does not have snapshot semantics). -/
theorem notify_not_snapshot_counterexample :
    (PublisherState.mk (none : Option Nat) [0, 1] false).subscriptions =
        [0, 1] ∧
    notifyFan (fun s => if s = 0 then Behaviour.unsubSelf else Behaviour.record)
        (PublisherState.mk (none : Option Nat) [0, 1] false) 5 =
      some (PublisherState.mk (some 5) [1] false, [0]) ∧
    ([0] : List Nat) ≠ [0, 1] := by
  refine ⟨rfl, ?_, by decide⟩
  rfl

/-- Model of `Value.emit(value, who=None)` (broqer/value.py lines 32-34):
it returns `Publisher.notify(self, value)`, ignoring the `who` argument
entirely (the source marks it `unused-argument`). -/
def valueEmit {α : Type} (behav : Nat → Behaviour) (p : PublisherState α)
    (x : α) (who : Option Nat) : Option (PublisherState α × List Nat) :=
  notifyFan behav p x

/-- Model of `Value.notify(value)` (broqer/value.py lines 28-30): it calls
`self.emit(value)`, i.e. `valueEmit` with the default `who = None`. -/
def valueNotify {α : Type} (behav : Nat → Behaviour) (p : PublisherState α)
    (x : α) : Option (PublisherState α × List Nat) :=
  valueEmit behav p x none

/-- C10: for every Value, payload and origin argument, `emit(x, who=w)` has
exactly the same effect as `notify(x)` — it sets the state to `x` and fans
out `x` to the subscribers — and two runs differing only in the `who`
argument are indistinguishable: the origin has no influence on a Value. -/
theorem value_emit_ignores_who {α : Type} (behav : Nat → Behaviour)
    (p : PublisherState α) (x : α) (w w' : Option Nat) :
    valueEmit behav p x w = valueEmit behav p x w' ∧
    valueEmit behav p x w = valueNotify behav p x ∧
    valueEmit behav p x w = notifyFan behav p x :=
  ⟨rfl, rfl, rfl⟩

/-- Error raised by a failed `assert` statement. -/
inductive OpErr where
  | assertionFailed
  deriving DecidableEq

/-- Model of `Distinct.emit(*args, who)` (broqer/op/distinct.py lines
55-60).  `st` models `self._state`: `none` for `None`, `some args` for a
cached tuple.  The two `assert` statements (`who == self._publisher`,
`len(args) >= 1`) are modelled as error results.  When the incoming tuple
equals the cached tuple by value nothing happens; otherwise the state is
updated and the tuple is forwarded downstream (`self.notify(*args)`).
Returns the new state and the downstream emissions. -/
def distinctEmit (upstream : Nat) (st : Option (List Nat)) (args : List Nat)
    (who : Nat) : Except OpErr (Option (List Nat) × List (List Nat)) :=
  if who ≠ upstream then Except.error OpErr.assertionFailed
  else if args.isEmpty then Except.error OpErr.assertionFailed
  else if st = some args then Except.ok (st, [])
  else Except.ok (some args, [args])

/-- Two consecutive `Distinct.emit` calls with the same arguments,
collecting the downstream emissions of both. -/
def distinctEmitTwice (upstream : Nat) (st : Option (List Nat))
    (args : List Nat) (who : Nat) :
    Except OpErr (Option (List Nat) × List (List Nat)) :=
  match distinctEmit upstream st args who with
  | Except.error e => Except.error e
  | Except.ok r1 =>
      match distinctEmit upstream r1.1 args who with
      | Except.error e => Except.error e
      | Except.ok r2 => Except.ok (r2.1, r1.2 ++ r2.2)

/-- C8: a `Distinct` emit whose tuple equals the cached tuple by value is
swallowed (no downstream emission, state unchanged); an emit whose tuple
differs updates the state and forwards the tuple; hence emitting a tuple
twice in a row from a state that differs from it yields exactly one
downstream emission. -/
theorem distinct_swallows_consecutive_duplicates (upstream : Nat)
    (st : Option (List Nat)) (args : List Nat) (hargs : args ≠ []) :
    (st = some args →
      distinctEmit upstream st args upstream = Except.ok (st, [])) ∧
    (st ≠ some args →
      distinctEmit upstream st args upstream =
        Except.ok (some args, [args])) ∧
    (st ≠ some args →
      distinctEmitTwice upstream st args upstream =
        Except.ok (some args, [args])) := by
  have hne : ¬ args.isEmpty = true := by simp [hargs]
  refine ⟨?_, ?_, ?_⟩
  · intro hdup
    simp [distinctEmit, hne, hdup]
  · intro hdiff
    simp [distinctEmit, hne, hdiff]
  · intro hdiff
    simp [distinctEmitTwice, distinctEmit, hne, hdiff]

/-- Witness for `distinct_swallows_consecutive_duplicates`: from cached
state `(1, 2)`, emitting `(1, 2)` is swallowed, emitting `(3,)` forwards,
and emitting `(3,)` twice in a row forwards exactly once. -/
theorem distinct_swallows_consecutive_duplicates_witness :
    distinctEmit 0 (some [1, 2]) [1, 2] 0 = Except.ok (some [1, 2], []) ∧
    distinctEmit 0 (some [1, 2]) [3] 0 = Except.ok (some [3], [[3]]) ∧
    distinctEmitTwice 0 (some [1, 2]) [3] 0 = Except.ok (some [3], [[3]]) :=
  ⟨(distinct_swallows_consecutive_duplicates 0 (some [1, 2]) [1, 2]
      (by decide)).1 rfl,
   (distinct_swallows_consecutive_duplicates 0 (some [1, 2]) [3]
      (by decide)).2.1 (by decide),
   (distinct_swallows_consecutive_duplicates 0 (some [1, 2]) [3]
      (by decide)).2.2 (by decide)⟩

/-- Model of `SlidingWindow.emit(*args, who)` (broqer/op/sliding_window.py
lines 24-27).  `buf` models `self._cache`, a `deque(maxlen=size)`:
appending to a full deque discards the oldest element.  `emitWhenNotFull`
models the constructor flag `emit_partial`.  The buffer is forwarded
downstream (`self._emit(self._cache)`) when it is full or the flag is set.
Returns the new buffer and the downstream emissions. -/
def slidingEmit (size : Nat) (emitWhenNotFull : Bool) (buf : List Nat)
    (v : Nat) : List Nat × List (List Nat) :=
  let appended := buf ++ [v]
  let buf' := if size < appended.length then
      appended.drop (appended.length - size)
    else appended
  if buf'.length = size ∨ emitWhenNotFull then (buf', [buf']) else (buf', [])

/-- Feed a list of values one by one into a `SlidingWindow`, collecting all
downstream emissions. -/
def slidingRun (size : Nat) (emitWhenNotFull : Bool) (buf : List Nat) :
    List Nat → List Nat × List (List Nat)
  | [] => (buf, [])
  | v :: vs =>
      let r := slidingEmit size emitWhenNotFull buf v
      let rest := slidingRun size emitWhenNotFull r.1 vs
      (rest.1, r.2 ++ rest.2)

/-- C9: a SlidingWindow of size 3 with partial emission disabled, fed
1, 2, 3, 4 in order, emits downstream exactly twice — `[1, 2, 3]` then
`[2, 3, 4]`; in general each incoming value is appended (evicting the
oldest exactly when the buffer is at capacity) and the resulting buffer is
forwarded exactly when it is full or partial emission is configured. -/
theorem slidingEmit_eq (size : Nat) (ew : Bool) (buf : List Nat) (v : Nat)
    (hsz : 0 < size) (hle : buf.length ≤ size) :
    slidingEmit size ew buf v =
      ((if buf.length < size then buf ++ [v] else buf.tail ++ [v]),
       if (if buf.length < size then buf ++ [v]
           else buf.tail ++ [v]).length = size ∨ ew = true then
         [if buf.length < size then buf ++ [v] else buf.tail ++ [v]]
       else []) := by
  unfold slidingEmit
  by_cases hfull : buf.length < size
  · have hnd : ¬ size < buf.length + 1 := by omega
    simp only [List.length_append, List.length_singleton, hnd, if_neg,
      ite_false, if_pos hfull, ite_true]
    by_cases hc : buf.length + 1 = size ∨ ew = true <;> simp [hc]
  · have heq : buf.length = size := by omega
    cases buf with
    | nil =>
        simp only [List.length_nil] at heq
        omega
    | cons x xs =>
        have hx : xs.length + 1 = size := by simpa using heq
        have hd : size < xs.length + 1 + 1 := by omega
        have hone : xs.length + 1 + 1 - size = 1 := by omega
        have hfull' : ¬ xs.length + 1 < size := by omega
        have hclen : (xs ++ [v]).length = size := by
          simp only [List.length_append, List.length_singleton]
          omega
        simp [hd, hone, hfull', hclen]

theorem sliding_window_emits_full_buffers (size : Nat) (ew : Bool)
    (buf : List Nat) (v : Nat) (hsz : 0 < size) (hle : buf.length ≤ size) :
    (slidingRun 3 false [] [1, 2, 3, 4]).2 = [[1, 2, 3], [2, 3, 4]] ∧
    (slidingEmit size ew buf v).1 =
      (if buf.length < size then buf ++ [v] else buf.tail ++ [v]) ∧
    (slidingEmit size ew buf v).2 =
      (if (slidingEmit size ew buf v).1.length = size ∨ ew = true then
        [(slidingEmit size ew buf v).1] else []) := by
  have h := slidingEmit_eq size ew buf v hsz hle
  refine ⟨rfl, ?_, ?_⟩
  · rw [h]
  · rw [h]

/-- Witness for `sliding_window_emits_full_buffers` at size 2, partial
emission disabled, buffer `[5]`, incoming value 7. -/
theorem sliding_window_emits_full_buffers_witness :
    (slidingRun 3 false [] [1, 2, 3, 4]).2 = [[1, 2, 3], [2, 3, 4]] ∧
    (slidingEmit 2 false [5] 7).1 = [5, 7] ∧
    (slidingEmit 2 false [5] 7).2 = [[5, 7]] := by
  have h := sliding_window_emits_full_buffers 2 false [5] 7
    (by decide) (by decide)
  exact ⟨h.1, by rw [h.2.1]; rfl, by rw [h.2.2]; rfl⟩

/-- Ordered trace events of an operator `subscribe` call gaining its first
local subscriber: `upSub p` is the upstream subscription
`publisher.subscribe(self)` to upstream `p`; `emitNew vals` is a delivery
`subscriber.emit(*vals, who=self)` to the new local subscriber. -/
inductive AEvent where
  | upSub (pub : Nat)
  | emitNew (vals : List Nat)
  deriving DecidableEq

/-- Trace of `Cache.subscribe(subscriber)` (broqer/op/cache.py lines 14-21)
on a Cache with no prior subscribers, cached tuple `c`, over an upstream
whose replay-on-subscribe state is `upCache` (`some uc` for a caching
upstream holding `uc`, `none` for an upstream that replays nothing).
Derivation from the source, with the legacy base publisher of
broqer/core.py (whose `Publisher.subscribe` performs no emission):
`self._cache` is stashed and set to `None`; `Operator.subscribe`
(broqer/op/_operator.py lines 12-16) adds the subscriber silently and,
this being the first subscription, subscribes to the upstream (`upSub`);
a caching upstream then replays `uc` to the Cache, whose `emit` stores it
and forwards it to its (sole) subscriber (`emitNew uc`); back in
`Cache.subscribe`, if the upstream did not emit the stash is restored and
emitted to the subscriber (`emitNew c`). -/
def cacheSubscribeTrace (upCache : Option (List Nat)) (c : List Nat) :
    List AEvent :=
  AEvent.upSub 0 ::
    (match upCache with
     | some uc => [AEvent.emitNew uc]
     | none => [AEvent.emitNew c])

/-- Trace of `Topic.subscribe(subscriber)` (broqer/hub.py lines 120-125) on
a Topic with no prior subscribers and a bound subject whose
replay-on-subscribe state is `subjCache`.  `Publisher.subscribe`
(broqer/core.py) adds the subscriber without emitting; this being the
first subscription and the subject being assigned, the topic subscribes to
the subject (`upSub`); a caching subject then replays its state to the
topic, whose `emit` with `who` equal to the subject re-emits to the
topic's (sole) subscriber (`emitNew`). -/
def topicSubscribeTrace (subjCache : Option (List Nat)) : List AEvent :=
  AEvent.upSub 0 ::
    (match subjCache with
     | some sc => [AEvent.emitNew sc]
     | none => [])

/-- Trace of `MultiOperator.subscribe(subscriber)`
(broqer/op/_operator.py lines 29-34) on a MultiOperator with no prior
subscribers over the upstream publishers `ups`: the subscriber is added
without emission, then every upstream is subscribed to in order.
`MultiOperator.emit` is abstract, so the subscribe call itself delivers
nothing to the new subscriber. -/
def multiSubscribeTrace (ups : List Nat) : List AEvent :=
  ups.map AEvent.upSub

/-- `true` when no `emitNew` event occurs before the first `upSub` event:
the upstream activation starts strictly before any replay delivery to the
new subscriber. -/
def noEmitBeforeUpSub : List AEvent → Bool
  | [] => true
  | AEvent.emitNew _ :: _ => false
  | AEvent.upSub _ :: _ => true

/-- C4: for an operator gaining its first local subscriber — a
single-upstream Operator (represented by Cache, the cited concrete
subclass), a Topic with a bound subject, or a MultiOperator — the upstream
subscription (the Inactive to Active transition) is established strictly
before any replay-on-subscribe emission reaches that new local
subscriber. -/
theorem upstream_subscription_precedes_replay :
    (∀ upCache c, noEmitBeforeUpSub (cacheSubscribeTrace upCache c) = true) ∧
    (∀ subjCache, noEmitBeforeUpSub (topicSubscribeTrace subjCache) = true) ∧
    (∀ ups, noEmitBeforeUpSub (multiSubscribeTrace ups) = true) := by
  refine ⟨fun upCache c => rfl, fun subjCache => rfl, fun ups => ?_⟩
  cases ups <;> rfl

/-- Error raised when binding a subject to an already-bound topic. -/
inductive BindErr where
  | topicAlreadyAssigned
  deriving DecidableEq

/-- Model of `broqer/hub.py` class `Topic`: `subject` models `_subject`
(`none` when unbound), `subscriptions` the inherited subscriber set,
`meta` the `_meta` attribute (`none` when absent), `assignmentFuture` the
`_assignment_future` attribute (`none` when never set, else the identifier
of the future most recently stored there). -/
structure TopicState where
  subject : Option Nat
  subscriptions : List Nat
  meta : Option Nat
  assignmentFuture : Option Nat
  deriving DecidableEq

/-- The pool of asyncio futures created by waiters: each entry pairs a
future identifier with its resolved flag; `next` is the next fresh
identifier. -/
structure FutureStore where
  futures : List (Nat × Bool)
  next : Nat
  deriving DecidableEq

/-- Model of `Topic.wait_for_assignment` (broqer/hub.py lines 149-158) up
to its first await point: when the topic is already assigned the waiter
resolves immediately (`none` returned); otherwise a fresh future is
created and stored in `_assignment_future` — overwriting whatever future a
previous waiter stored there — and the waiter awaits it (`some id`
returned).  The timeout branch is not modelled. -/
def waitForAssignment (t : TopicState) (fs : FutureStore) :
    TopicState × FutureStore × Option Nat :=
  match t.subject with
  | some _ => (t, fs, none)
  | none =>
      ({ t with assignmentFuture := some fs.next },
       { futures := fs.futures ++ [(fs.next, false)], next := fs.next + 1 },
       some fs.next)

/-- Observable side effects of a successful bind. -/
inductive HubEvent where
  | subjectSubscribe (pub : Nat)
  | futureResolved (fid : Nat)
  deriving DecidableEq

/-- Model of the `_build` closure returned by `Hub.publish`
(broqer/hub.py lines 179-196).  In source order: raise `ValueError` when
the topic already has a subject; install the publisher as the subject;
when the topic has subscribers, subscribe the topic to the new subject;
attach `meta` when provided; when an `_assignment_future` attribute
exists, resolve that (single, most recently stored) future. -/
def hubBuild (t : TopicState) (fs : FutureStore) (metaArg : Option Nat)
    (pub : Nat) :
    Except BindErr (TopicState × FutureStore × List HubEvent) :=
  match t.subject with
  | some _ => Except.error BindErr.topicAlreadyAssigned
  | none =>
      let subEvs : List HubEvent :=
        if t.subscriptions.isEmpty then [] else [HubEvent.subjectSubscribe pub]
      let meta' := match metaArg with
        | some m => some m
        | none => t.meta
      match t.assignmentFuture with
      | some fid =>
          Except.ok
            ({ t with subject := some pub, meta := meta' },
             { fs with futures :=
                 (List.map (fun q => if q.1 = fid then (q.1, true) else q)
                   fs.futures) },
             subEvs ++ [HubEvent.futureResolved fid])
      | none =>
          Except.ok
            ({ t with subject := some pub, meta := meta' }, fs, subEvs)

/-- C6: applying a binder from `hub.publish` to a topic that already has a
bound subject fails with the binding-conflict error (the source raises
before any mutation, so the topic keeps its original subject), while
binding an unbound topic succeeds and installs the publisher as the
subject exactly once. -/
theorem hub_rebind_fails_and_preserves_subject :
    (∀ t fs metaArg pub q, t.subject = some q →
      hubBuild t fs metaArg pub = Except.error BindErr.topicAlreadyAssigned) ∧
    (∀ t fs metaArg pub, t.subject = none →
      ∃ t' fs' evs, hubBuild t fs metaArg pub = Except.ok (t', fs', evs) ∧
        t'.subject = some pub) := by
  constructor
  · intro t fs metaArg pub q hq
    unfold hubBuild
    rw [hq]
  · intro t fs metaArg pub hn
    unfold hubBuild
    rw [hn]
    cases hf : t.assignmentFuture <;> exact ⟨_, _, _, rfl, rfl⟩

/-- Witness for `hub_rebind_fails_and_preserves_subject`: rebinding a topic
bound to publisher 5 fails, and binding a fresh topic to publisher 5
succeeds. -/
theorem hub_rebind_fails_and_preserves_subject_witness :
    hubBuild (TopicState.mk (some 5) [] none none) (FutureStore.mk [] 0)
        none 6 = Except.error BindErr.topicAlreadyAssigned ∧
    ∃ t' fs' evs,
      hubBuild (TopicState.mk none [] none none) (FutureStore.mk [] 0)
          none 5 = Except.ok (t', fs', evs) ∧
      t'.subject = some 5 :=
  ⟨hub_rebind_fails_and_preserves_subject.1
      (TopicState.mk (some 5) [] none none) (FutureStore.mk [] 0) none 6 5 rfl,
   hub_rebind_fails_and_preserves_subject.2
      (TopicState.mk none [] none none) (FutureStore.mk [] 0) none 5 rfl⟩

/-- The C5 failing scenario: on a fresh unbound topic, two waiters call
`wait_for_assignment` (in this order), then the binder from `hub.publish`
is applied with publisher 42.  Returns the two waiters' future ids, the
final future store and the result of the bind. -/
def twoWaitersThenBind :
    Option Nat × Option Nat × FutureStore ×
      Except BindErr (TopicState × FutureStore × List HubEvent) :=
  let t0 : TopicState := TopicState.mk none [] none none
  let fs0 : FutureStore := FutureStore.mk [] 0
  let r1 := waitForAssignment t0 fs0
  let r2 := waitForAssignment r1.1 r1.2.1
  let rb := hubBuild r2.1 r2.2.1 none 42
  (r1.2.2, r2.2.2,
   match rb with
   | Except.ok r => r.2.1
   | Except.error _ => r2.2.1,
   rb)

/-- C5 at the failing input: with two waiters pending on the same unbound
topic (futures 0 and 1), the bind resolves only the second waiter's future
— future 0, awaited by the first waiter, is still unresolved after the
binding, contradicting the claim that every pending waiter resolves. -/
theorem second_waiter_overwrites_first_future :
    twoWaitersThenBind.1 = some 0 ∧
    twoWaitersThenBind.2.1 = some 1 ∧
    twoWaitersThenBind.2.2.1.futures = [(0, false), (1, true)] := by
  refine ⟨by decide, by decide, by decide⟩

end Broqer
